import Mathlib

/-!
Verification of the webcopilot perception-to-action core against its code.

The definitions below are a shallow embedding of the TypeScript sources:
  * `src/util/utilities.ts` — `splitImageIntoChunks`, `executeAction`,
    `executeCommand`, `extractJSONFromString` (its null result is embedded
    as a `none` action),
  * `src/util/llm.ts` — `LLM.writeLLMCache`, `LLM.readLLMCache`,
    `LLM.removeCache`, `LLM.invoke`,
  * `src/util/requests.ts` — `Requests.isUrlMatchingPattern`,
    `Requests.shouldBlockRequest`, `Requests.newRequest`.

JavaScript numbers appearing in the code are embedded as `Nat`/`Int` with
the non-integer corner cases noted at each definition.  External
collaborators (the browser page, the Anthropic backend, the MD5 hash and
the on-disk filesystem) are threaded through as explicit parameters or
association-list states.
-/

/- ## Snapshot chunker: `splitImageIntoChunks` (utilities.ts)

The source hard-codes `CHUNK_HEIGHT = 1024` and `OVERLAP = 200`, computes
`totalChunks = Math.ceil((height - OVERLAP) / (CHUNK_HEIGHT - OVERLAP))`
and for `i` in `[0, totalChunks)` emits a chunk of height
`isShortImage ? height : CHUNK_HEIGHT` starting at
`i === totalChunks - 1 ? max(0, height - CHUNK_HEIGHT) : i * (CHUNK_HEIGHT - OVERLAP)`.

For a natural page height `H`, `Math.ceil((H - 200) / 824)` equals the
natural-number ceiling division `(H - 200 + 823) / 824` computed with
truncated subtraction: for `H ≤ 200` the JS ceiling of a non-positive
quotient is `0`, as is the truncated form.  `max(0, H - CHUNK_HEIGHT)` is
likewise truncated subtraction on `Nat`. -/

def CHUNK_HEIGHT : Nat := 1024

def OVERLAP : Nat := 200

/-- Natural ceiling division, the value of `Math.ceil(a / b)` for the
nonnegative operands produced by the chunker. -/
def natCeilDiv (a b : Nat) : Nat := (a + b - 1) / b

/-- `totalChunks` as computed by `splitImageIntoChunks` for image height `H`. -/
def totalChunks (H : Nat) : Nat := natCeilDiv (H - OVERLAP) (CHUNK_HEIGHT - OVERLAP)

/-- Chunk height: `isShortImage ? metadata.height : CHUNK_HEIGHT`. -/
def chunkHeight (H : Nat) : Nat := if H < CHUNK_HEIGHT then H else CHUNK_HEIGHT

/-- `startY` of chunk `i`: the last chunk snaps to `max(0, H - CHUNK_HEIGHT)`,
every other chunk sits at `i * (CHUNK_HEIGHT - OVERLAP)`. -/
def chunkStartY (H i : Nat) : Nat :=
  if i = totalChunks H - 1 then H - CHUNK_HEIGHT else i * (CHUNK_HEIGHT - OVERLAP)

/-- The `(offset, height)` pairs of the chunks pushed by the loop, in order. -/
def chunkTiles (H : Nat) : List (Nat × Nat) :=
  (List.range (totalChunks H)).map (fun i => (chunkStartY H i, chunkHeight H))

/-- The `offsetHeights` array returned by `splitImageIntoChunks`. -/
def offsetHeightsOf (H : Nat) : List Nat :=
  (List.range (totalChunks H)).map (chunkStartY H)

lemma totalChunks_eq (H : Nat) : totalChunks H = (H - 200 + 823) / 824 := by
  have h : (1024 : Nat) - 200 = 824 := by norm_num
  simp only [totalChunks, natCeilDiv, CHUNK_HEIGHT, OVERLAP, h]
  omega

lemma totalChunks_bounds (H : Nat) :
    H - 200 ≤ 824 * totalChunks H ∧ 824 * totalChunks H ≤ H - 200 + 823 := by
  rw [totalChunks_eq]
  have hdm := Nat.div_add_mod (H - 200 + 823) 824
  have hml : (H - 200 + 823) % 824 < 824 := Nat.mod_lt _ (by norm_num)
  omega

/-- The amended chunker invariant: offsets are non-decreasing, the tiles
cover `[0, H)`, every adjacent pair overlaps by at least `OVERLAP` — with
the non-final pairs overlapping by exactly `OVERLAP` — and the last tile's
bottom edge is exactly `H`. -/
def ChunkerCovers (H : Nat) : Prop :=
  (∀ i, i + 1 < totalChunks H → chunkStartY H i ≤ chunkStartY H (i + 1))
  ∧ (∀ y, y < H → ∃ i, i < totalChunks H ∧
      chunkStartY H i ≤ y ∧ y < chunkStartY H i + chunkHeight H)
  ∧ (∀ i, i + 2 < totalChunks H →
      chunkStartY H i + chunkHeight H = chunkStartY H (i + 1) + OVERLAP)
  ∧ (∀ i, i + 1 < totalChunks H →
      chunkStartY H (i + 1) + OVERLAP ≤ chunkStartY H i + chunkHeight H)
  ∧ chunkStartY H (totalChunks H - 1) + chunkHeight H = H

/-- Claim C1 (amended): for `OVERLAP = 200 < CHUNK_HEIGHT = 1024 < H` the
chunker's tiles have non-decreasing offsets, cover `[0, H)`, overlap by at
least the configured overlap on every adjacent pair (exactly the overlap on
all non-final pairs), and the last tile's bottom edge equals `H`.  The
original claim's "exactly the configured overlap on every adjacent pair"
fails at the snapped final tile, see the counterexample. -/
theorem splitImageIntoChunks_C1_amended (H : Nat) (hH : 1024 < H) : ChunkerCovers H := by
  obtain ⟨hb1, hb2⟩ := totalChunks_bounds H
  have hh : chunkHeight H = 1024 := by
    unfold chunkHeight CHUNK_HEIGHT
    rw [if_neg (by omega)]
  have hn2 : 2 ≤ totalChunks H := by omega
  have hlast : chunkStartY H (totalChunks H - 1) = H - 1024 := by
    unfold chunkStartY CHUNK_HEIGHT
    rw [if_pos rfl]
  have hmid : ∀ i, i ≠ totalChunks H - 1 → chunkStartY H i = 824 * i := by
    intro i hi
    unfold chunkStartY CHUNK_HEIGHT OVERLAP
    rw [if_neg hi]
    omega
  refine ⟨?_, ?_, ?_, ?_, ?_⟩
  · intro i hi
    by_cases hc : i + 1 = totalChunks H - 1
    · rw [hmid i (by omega), hc, hlast]
      omega
    · rw [hmid i (by omega), hmid (i + 1) hc]
      omega
  · intro y hy
    by_cases hc : H - 1024 ≤ y
    · exact ⟨totalChunks H - 1, by omega, by rw [hlast]; omega,
        by rw [hlast, hh]; omega⟩
    · have hdm := Nat.div_add_mod y 824
      have hml : y % 824 < 824 := Nat.mod_lt _ (by norm_num)
      have hne : y / 824 ≠ totalChunks H - 1 := by omega
      refine ⟨y / 824, by omega, ?_, ?_⟩
      · rw [hmid _ hne]
        omega
      · rw [hmid _ hne, hh]
        omega
  · intro i hi
    have h1 : i ≠ totalChunks H - 1 := by omega
    have h2 : i + 1 ≠ totalChunks H - 1 := by omega
    rw [hmid i h1, hmid (i + 1) h2, hh]
    unfold OVERLAP
    omega
  · intro i hi
    by_cases hc : i + 1 = totalChunks H - 1
    · rw [hmid i (by omega), hc, hlast, hh]
      unfold OVERLAP
      omega
    · rw [hmid i (by omega), hmid (i + 1) hc, hh]
      unfold OVERLAP
      omega
  · rw [hlast, hh]
    omega

/-- Witness for `splitImageIntoChunks_C1_amended` at the concrete height 2500. -/
theorem splitImageIntoChunks_C1_witness : 1024 < 2500 ∧ ChunkerCovers 2500 :=
  ⟨by norm_num, splitImageIntoChunks_C1_amended 2500 (by norm_num)⟩

/-- Claim C1 as stated is false: at height 1500 the chunker emits tiles at
offsets 0 and 476 (the second snapped to the bottom), so the adjacent pair
overlaps by `1024 - 476 = 548`, not by the configured `OVERLAP = 200`. -/
theorem splitImageIntoChunks_C1_counterexample :
    chunkTiles 1500 = [(0, 1024), (476, 1024)] ∧ 0 + 1024 ≠ 476 + OVERLAP := by
  constructor
  · decide
  · decide

/-- Claim C3 (amended): for `OVERLAP = 200 < H ≤ 1024 = CHUNK_HEIGHT` the
chunker emits exactly one tile, at offset 0 and of height `H`.  The
original claim's range `H ≤ 1024` also admits `H ≤ 200`, where
`Math.ceil((H - 200) / 824) ≤ 0` makes the loop body run zero times and no
tile at all is produced, see the counterexample. -/
theorem splitImageIntoChunks_C3_amended (H : Nat) (h1 : 200 < H) (h2 : H ≤ 1024) :
    chunkTiles H = [(0, H)] := by
  have hn : totalChunks H = 1 := by
    rw [totalChunks_eq]
    omega
  have hs : chunkStartY H 0 = 0 := by
    unfold chunkStartY CHUNK_HEIGHT
    rw [hn]
    rw [if_pos (by norm_num)]
    omega
  have hc : chunkHeight H = H := by
    unfold chunkHeight CHUNK_HEIGHT
    by_cases hx : H < 1024
    · rw [if_pos hx]
    · rw [if_neg hx]
      omega
  have hr : List.range 1 = [0] := rfl
  simp only [chunkTiles, hn, hr, List.map_cons, List.map_nil, hs, hc]

/-- Witness for `splitImageIntoChunks_C3_amended` at the concrete height 800. -/
theorem splitImageIntoChunks_C3_witness :
    200 < 800 ∧ 800 ≤ 1024 ∧ chunkTiles 800 = [(0, 800)] :=
  ⟨by norm_num, by norm_num,
    splitImageIntoChunks_C3_amended 800 (by norm_num) (by norm_num)⟩

/-- Claim C3 as stated is false: height 100 satisfies `H ≤ 1024`, yet
`totalChunks 100 = 0` and the chunker produces no tile at all rather than
one tile at offset 0. -/
theorem splitImageIntoChunks_C3_counterexample :
    100 ≤ 1024 ∧ chunkTiles 100 = [] := by
  constructor
  · decide
  · decide

/- ## Response cache: `LLM.writeLLMCache` / `readLLMCache` / `removeCache` /
`invoke` (llm.ts)

The on-disk cache directory is embedded as an association list from file
path to file content; each cache file stores the JSON object
`{prompt, llmResponse}`, embedded as the `CacheFile` record.  The MD5 hash
of the prompt is an external collaborator (the `crypto` module) and is
threaded through as a function parameter `md5f`.  Load-bearing details kept
from the source: `writeLLMCache` and `readLLMCache` hard-code the directory
name `'llm_cache'`, while `removeCache` reads the directory from the
configured `cache.path`; and `removeCache` has no `cache.enabled` guard. -/

structure CacheConfig where
  enabled : Bool
  path : String
deriving DecidableEq

structure CacheFile where
  prompt : String
  llmResponse : String
deriving DecidableEq

abbrev FileSys := List (String × CacheFile)

def fsLookup : FileSys → String → Option CacheFile
  | [], _ => none
  | kv :: rest, k => if kv.1 = k then some kv.2 else fsLookup rest k

def fsRemove : FileSys → String → FileSys
  | [], _ => []
  | kv :: rest, k => if kv.1 = k then fsRemove rest k else kv :: fsRemove rest k

/-- `fs.promises.writeFile` replaces the file wholesale. -/
def fsWrite (fs : FileSys) (k : String) (v : CacheFile) : FileSys :=
  (k, v) :: fsRemove fs k

def pathJoin (dir file : String) : String := dir ++ "/" ++ file

/-- The directory name hard-coded inside `writeLLMCache` and `readLLMCache`. -/
def cacheDirName : String := "llm_cache"

def cacheFileName (h : String) : String := h ++ ".txt"

/-- `LLM.writeLLMCache`: returns the new filesystem and the returned hash
(`null` when the cache is disabled). -/
def writeLLMCache (cfg : CacheConfig) (md5f : String → String) (fs : FileSys)
    (prompt llmResponse : String) : FileSys × Option String :=
  if !cfg.enabled then (fs, none)
  else
    let md5Hash := md5f prompt
    (fsWrite fs (pathJoin cacheDirName (cacheFileName md5Hash)) ⟨prompt, llmResponse⟩,
      some md5Hash)

/-- `LLM.readLLMCache`: returns `[cachedResponse, md5Hash]`; a missing file
is a miss (`[null, null]`). -/
def readLLMCache (cfg : CacheConfig) (md5f : String → String) (fs : FileSys)
    (prompt : String) : Option String × Option String :=
  if !cfg.enabled then (none, none)
  else
    let md5Hash := md5f prompt
    match fsLookup fs (pathJoin cacheDirName (cacheFileName md5Hash)) with
    | none => (none, none)
    | some cacheContent => (some cacheContent.llmResponse, some md5Hash)

/-- `LLM.removeCache`: unconditionally (no `enabled` check) unlinks
`<cache.path>/<hash>.txt` if it exists. -/
def removeCache (cfg : CacheConfig) (fs : FileSys) (cacheHash : String) : FileSys :=
  let cacheFile := pathJoin cfg.path (cacheFileName cacheHash)
  if (fsLookup fs cacheFile).isSome then fsRemove fs cacheFile else fs

/-- Result of `LLM.invoke`: the filesystem after any cache write, the
returned response text, the returned hash, and whether the Anthropic
backend was called. -/
structure InvokeResult where
  fs : FileSys
  llmResponse : String
  cacheHash : Option String
  calledBackend : Bool
deriving DecidableEq

/-- `LLM.invoke`: a cached response is used only when it is truthy
(`if (cachedResponse)`), i.e. non-null and non-empty; otherwise the backend
is called and its response written to the cache.  The backend is an
external collaborator, embedded as the text `backendResponse` it would
return for this call. -/
def invoke (cfg : CacheConfig) (md5f : String → String) (fs : FileSys)
    (backendResponse : String) (prompt : String) : InvokeResult :=
  match readLLMCache cfg md5f fs prompt with
  | (some cachedResponse, cacheHash) =>
    if cachedResponse != "" then ⟨fs, cachedResponse, cacheHash, false⟩
    else
      let w := writeLLMCache cfg md5f fs prompt backendResponse
      ⟨w.1, backendResponse, w.2, true⟩
  | (none, _) =>
    let w := writeLLMCache cfg md5f fs prompt backendResponse
    ⟨w.1, backendResponse, w.2, true⟩

lemma fsLookup_fsRemove (fs : FileSys) (k k2 : String) :
    fsLookup (fsRemove fs k) k2 = if k2 = k then none else fsLookup fs k2 := by
  induction fs with
  | nil => simp [fsLookup, fsRemove]
  | cons kv rest ih =>
    simp only [fsRemove, fsLookup]
    by_cases h1 : kv.1 = k <;> by_cases h2 : kv.1 = k2 <;> by_cases h3 : k2 = k <;>
      simp_all [fsLookup]

lemma fsLookup_fsWrite (fs : FileSys) (k : String) (v : CacheFile) :
    fsLookup (fsWrite fs k v) k = some v := by
  simp [fsLookup, fsWrite]

/-- Claim C7 (amended): with the cache enabled, `write(p, r)` returns the
key `md5f p`, and `read(p)` afterwards returns `r` with that key; if
moreover the configured cache path equals the directory `'llm_cache'`
hard-coded by write/read, removing the returned key makes `read(p)` miss.
The path premise is forced: `removeCache` reads the directory from
`cache.path` while write/read hard-code `'llm_cache'`, see the
counterexample. -/
theorem cacheRoundtrip_C7_amended (cfg : CacheConfig) (md5f : String → String)
    (fs : FileSys) (p r : String) (hen : cfg.enabled = true) :
    (writeLLMCache cfg md5f fs p r).2 = some (md5f p)
    ∧ readLLMCache cfg md5f (writeLLMCache cfg md5f fs p r).1 p
        = (some r, some (md5f p))
    ∧ (cfg.path = cacheDirName →
        readLLMCache cfg md5f
          (removeCache cfg (writeLLMCache cfg md5f fs p r).1 (md5f p)) p
          = (none, none)) := by
  refine ⟨?_, ?_, ?_⟩
  · simp [writeLLMCache, hen]
  · simp [writeLLMCache, readLLMCache, hen, fsLookup_fsWrite]
  · intro hpath
    simp [writeLLMCache, readLLMCache, removeCache, hen, hpath,
      fsLookup_fsWrite, fsLookup_fsRemove]

/-- Witness for `cacheRoundtrip_C7_amended` at a concrete configuration,
hash function, filesystem and prompt/response pair. -/
theorem cacheRoundtrip_C7_witness :
    (⟨true, "llm_cache"⟩ : CacheConfig).enabled = true
    ∧ ((writeLLMCache ⟨true, "llm_cache"⟩ (fun _ => "k0") [] "p" "r").2 = some "k0"
    ∧ readLLMCache ⟨true, "llm_cache"⟩ (fun _ => "k0")
        (writeLLMCache ⟨true, "llm_cache"⟩ (fun _ => "k0") [] "p" "r").1 "p"
        = (some "r", some "k0")
    ∧ ((⟨true, "llm_cache"⟩ : CacheConfig).path = cacheDirName →
        readLLMCache ⟨true, "llm_cache"⟩ (fun _ => "k0")
          (removeCache ⟨true, "llm_cache"⟩
            (writeLLMCache ⟨true, "llm_cache"⟩ (fun _ => "k0") [] "p" "r").1 "k0") "p"
          = (none, none))) :=
  ⟨rfl, cacheRoundtrip_C7_amended ⟨true, "llm_cache"⟩ (fun _ => "k0") [] "p" "r" rfl⟩

/-- Claim C7 as stated is false when the configured cache path is not the
hard-coded `'llm_cache'`: with `path = "cache2"`, after `write("p", "r")`
(which returns key `"k0"`), `remove("k0")` unlinks `cache2/k0.txt` while the
entry lives at `llm_cache/k0.txt`, so `read("p")` still hits instead of
missing. -/
theorem cacheRoundtrip_C7_counterexample :
    (writeLLMCache ⟨true, "cache2"⟩ (fun _ => "k0") [] "p" "r").2 = some "k0"
    ∧ readLLMCache ⟨true, "cache2"⟩ (fun _ => "k0")
        (removeCache ⟨true, "cache2"⟩
          (writeLLMCache ⟨true, "cache2"⟩ (fun _ => "k0") [] "p" "r").1 "k0") "p"
        ≠ (none, none) := by
  constructor
  · decide
  · decide

/-- Claim C6 (amended): with the cache disabled, `writeLLMCache` and
`readLLMCache` are no-ops that return null results, but `removeCache` has
no disabled-guard: it still deletes the file `<cache.path>/<hash>.txt` when
present (and touches nothing else).  The original claim's "all three are
no-ops" fails for remove, see the counterexample. -/
theorem cacheDisabled_C6_amended (cfg : CacheConfig) (md5f : String → String)
    (fs : FileSys) (p r h : String) (hen : cfg.enabled = false) :
    writeLLMCache cfg md5f fs p r = (fs, none)
    ∧ readLLMCache cfg md5f fs p = (none, none)
    ∧ fsLookup (removeCache cfg fs h) (pathJoin cfg.path (cacheFileName h)) = none
    ∧ (∀ k, k ≠ pathJoin cfg.path (cacheFileName h) →
        fsLookup (removeCache cfg fs h) k = fsLookup fs k) := by
  refine ⟨?_, ?_, ?_, ?_⟩
  · simp [writeLLMCache, hen]
  · simp [readLLMCache, hen]
  · unfold removeCache
    by_cases hx : (fsLookup fs (pathJoin cfg.path (cacheFileName h))).isSome
    · rw [if_pos hx, fsLookup_fsRemove, if_pos rfl]
    · rw [if_neg hx]
      simp only [Option.isSome] at hx
      revert hx
      match fsLookup fs (pathJoin cfg.path (cacheFileName h)) with
      | none => intro hx; rfl
      | some v => intro hx; simp at hx
  · intro k hk
    unfold removeCache
    by_cases hx : (fsLookup fs (pathJoin cfg.path (cacheFileName h))).isSome
    · rw [if_pos hx, fsLookup_fsRemove, if_neg hk]
    · rw [if_neg hx]

/-- Witness for `cacheDisabled_C6_amended` with a concrete disabled
configuration whose cache directory holds one entry. -/
theorem cacheDisabled_C6_witness :
    (⟨false, "llm_cache"⟩ : CacheConfig).enabled = false
    ∧ (writeLLMCache ⟨false, "llm_cache"⟩ (fun _ => "k0")
        [("llm_cache/k0.txt", ⟨"p", "r"⟩)] "p" "r"
        = ([("llm_cache/k0.txt", ⟨"p", "r"⟩)], none)
    ∧ readLLMCache ⟨false, "llm_cache"⟩ (fun _ => "k0")
        [("llm_cache/k0.txt", ⟨"p", "r"⟩)] "p" = (none, none)
    ∧ fsLookup (removeCache ⟨false, "llm_cache"⟩
        [("llm_cache/k0.txt", ⟨"p", "r"⟩)] "k0")
        (pathJoin (⟨false, "llm_cache"⟩ : CacheConfig).path (cacheFileName "k0")) = none
    ∧ (∀ k, k ≠ pathJoin (⟨false, "llm_cache"⟩ : CacheConfig).path (cacheFileName "k0") →
        fsLookup (removeCache ⟨false, "llm_cache"⟩
          [("llm_cache/k0.txt", ⟨"p", "r"⟩)] "k0") k
          = fsLookup [("llm_cache/k0.txt", ⟨"p", "r"⟩)] k)) :=
  ⟨rfl, cacheDisabled_C6_amended ⟨false, "llm_cache"⟩ (fun _ => "k0")
    [("llm_cache/k0.txt", ⟨"p", "r"⟩)] "p" "r" "k0" rfl⟩

/-- Claim C6 as stated is false: with the cache disabled, `removeCache` is
not a no-op — on a cache directory holding `llm_cache/k0.txt` it deletes
that file, changing the directory state. -/
theorem removeCache_C6_counterexample :
    removeCache ⟨false, "llm_cache"⟩ [("llm_cache/k0.txt", ⟨"p", "r"⟩)] "k0" = []
    ∧ ([] : FileSys) ≠ [("llm_cache/k0.txt", ⟨"p", "r"⟩)] := by
  constructor
  · decide
  · decide

/-- Claim C10 (confirmed): with the cache enabled and the cache file for a
prompt storing the empty string as its response, `LLM.invoke` does not
treat it as a hit — `if (cachedResponse)` tests truthiness, the empty
string is falsy — so it calls the backend and returns the fresh response. -/
theorem invoke_C10_emptyCacheMiss (cfg : CacheConfig) (md5f : String → String)
    (fs : FileSys) (backendResponse p : String) (c : CacheFile)
    (hen : cfg.enabled = true)
    (hfile : fsLookup fs (pathJoin cacheDirName (cacheFileName (md5f p))) = some c)
    (hemp : c.llmResponse = "") :
    (invoke cfg md5f fs backendResponse p).calledBackend = true
    ∧ (invoke cfg md5f fs backendResponse p).llmResponse = backendResponse := by
  have hread : readLLMCache cfg md5f fs p = (some "", some (md5f p)) := by
    simp [readLLMCache, hen, hfile, hemp]
  unfold invoke
  rw [hread]
  simp

/-- Witness for `invoke_C10_emptyCacheMiss` on a concrete cache directory
storing an empty response for the prompt. -/
theorem invoke_C10_witness :
    fsLookup [("llm_cache/k0.txt", ⟨"p", ""⟩)]
      (pathJoin cacheDirName (cacheFileName "k0")) = some ⟨"p", ""⟩
    ∧ ((invoke ⟨true, "llm_cache"⟩ (fun _ => "k0")
          [("llm_cache/k0.txt", ⟨"p", ""⟩)] "fresh" "p").calledBackend = true
    ∧ (invoke ⟨true, "llm_cache"⟩ (fun _ => "k0")
          [("llm_cache/k0.txt", ⟨"p", ""⟩)] "fresh" "p").llmResponse = "fresh") :=
  ⟨by decide, invoke_C10_emptyCacheMiss ⟨true, "llm_cache"⟩ (fun _ => "k0")
    [("llm_cache/k0.txt", ⟨"p", ""⟩)] "fresh" "p" ⟨"p", ""⟩ rfl (by decide) rfl⟩

/- ## Request tracker: `Requests` (requests.ts)

`isUrlMatchingPattern` converts the glob pattern to a RegExp by escaping
dots, turning `*` into `.*` and `?` into `.`, anchoring with `^...$`, and
tests it against `hostname + pathname` of the parsed URL.  `globMatch`
embeds the language of that anchored RegExp for patterns built from
literal characters, `*` and `?` (the code escapes no other metacharacter;
the RegExp `.` produced from `?`/`*` excludes line terminators, which no
URL hostname/path contains). -/

def globMatch : List Char → List Char → Bool
  | [], s => s.isEmpty
  | c :: ps, s =>
    if c = '*' then (List.tails s).any (fun s2 => globMatch ps s2)
    else
      match s with
      | [] => false
      | d :: s2 => (c == '?' || c == d) && globMatch ps s2

/-- Splits character list at the first `://`, returning scheme and rest. -/
def splitScheme : List Char → Option (List Char × List Char)
  | [] => none
  | ':' :: '/' :: '/' :: rest => some ([], rest)
  | c :: rest =>
    match splitScheme rest with
    | none => none
    | some (scheme, tail) => some (c :: scheme, tail)

/-- `new URL(url)` reduced to `hostname + pathname`, for the plain
`scheme://host/path` URLs the tracker sees (no port, userinfo, query or
fragment; the hostname is lowercased and an empty path normalises to `/`;
an unparsable URL yields `none`, which the matcher treats as no match,
like the `catch` in the source). -/
def urlHostPath (url : String) : Option (List Char) :=
  match splitScheme url.toList with
  | none => none
  | some ([], _) => none
  | some (_ :: _, rest) =>
    let host := rest.takeWhile (fun c => c != '/')
    let path := rest.drop host.length
    if host.isEmpty then none
    else some (host.map Char.toLower ++ (if path.isEmpty then ['/'] else path))

/-- `Requests.isUrlMatchingPattern`. -/
def isUrlMatchingPattern (url pattern : String) : Bool :=
  match urlHostPath url with
  | none => false
  | some testString => globMatch pattern.toList testString

/-- `Requests.shouldBlockRequest`: some blocklist pattern matches the URL. -/
def shouldBlockRequest (block : List String) (url : String) : Bool :=
  block.any (fun pattern => isUrlMatchingPattern url pattern)

structure RequestInfo where
  timestamp : Int
  method : String
  resourceType : String
deriving DecidableEq

/-- `Map.prototype.set`: update in place if the key exists, else append. -/
def mapSet (m : List (String × RequestInfo)) (k : String) (v : RequestInfo) :
    List (String × RequestInfo) :=
  if m.any (fun kv => kv.1 == k) then
    m.map (fun kv => if kv.1 == k then (k, v) else kv)
  else m ++ [(k, v)]

structure NewRequestResult where
  ongoingRequests : List (String × RequestInfo)
  aborted : Bool
deriving DecidableEq

/-- `Requests.newRequest`: a blocked request is aborted and never inserted
into `ongoingRequests`; otherwise it is continued and tracked. -/
def newRequest (block : List String) (m : List (String × RequestInfo))
    (url : String) (info : RequestInfo) : NewRequestResult :=
  if shouldBlockRequest block url then ⟨m, true⟩
  else ⟨mapSet m url info, false⟩

/-- Claim C9 (confirmed): the glob pattern `*.example.com/*` matches
`https://a.example.com/x` and does not match `https://example.com/x`; and a
request matching any blocklist pattern is aborted with the tracked-request
map left unchanged. -/
theorem requests_C9_blocklist :
    isUrlMatchingPattern "https://a.example.com/x" "*.example.com/*" = true
    ∧ isUrlMatchingPattern "https://example.com/x" "*.example.com/*" = false
    ∧ ∀ block m url info, shouldBlockRequest block url = true →
        newRequest block m url info = ⟨m, true⟩ := by
  refine ⟨by decide, by decide, ?_⟩
  intro block m url info hb
  unfold newRequest
  rw [if_pos hb]

/-- Witness for the blocked-request branch of `requests_C9_blocklist` at a
concrete blocklist, map and URL. -/
theorem requests_C9_witness :
    shouldBlockRequest ["*.example.com/*"] "https://a.example.com/x" = true
    ∧ newRequest ["*.example.com/*"] [] "https://a.example.com/x" ⟨0, "GET", "xhr"⟩
        = ⟨[], true⟩ :=
  ⟨by decide, requests_C9_blocklist.2.2 ["*.example.com/*"] []
    "https://a.example.com/x" ⟨0, "GET", "xhr"⟩ (by decide)⟩

/- ## Action executor: `executeAction` (utilities.ts)

The parsed LLM action is an untyped JSON object; its fields are embedded as
options, with `value` a small JS value type (the code compares it both to
the string `'true'` and the boolean `true`).  `extractJSONFromString`
returning `null` is embedded as the `none` action.

The live page is an external collaborator, embedded as a `PageState` with a
URL, the vertical scroll position and the tag-id–addressed elements
(rectangles in document coordinates).  `getBoundingClientRect` is
viewport-relative, so its `top` is the document top minus the current
scroll (no horizontal scrolling occurs in this flow).

Control flow kept from the source, in order:
 1. a truthy action with `action === 'navigate'` navigates and returns true
    (throwing when `action.value` is falsy);
 2. otherwise `action.target_id` is read — on a `null` action this throws a
    `TypeError` (embedded as `ExecError.typeError`);
 3. a truthy `target_id` overwrites `location_x`/`location_y` with the
    tagged element's viewport centre, computed at the CURRENT scroll;
 4. the page scrolls to `offsetHeights[action.target_image - 1]` (an
    out-of-range or missing index gives `undefined`, which `scrollTo`
    coerces to 0);
 5. the switch dispatches `click` / `type` / `expectation` / `unknown`,
    anything else throwing `invalid action`; the two retry-aware branches
    return false only when the retry flag is set, else they throw. -/

inductive JVal where
  | str : String → JVal
  | bool : Bool → JVal
  | num : Int → JVal
deriving DecidableEq

/-- JavaScript truthiness for the values `action.value` can hold. -/
def JVal.truthy : JVal → Bool
  | .str s => !(s == "")
  | .bool b => b
  | .num n => n != 0

/-- JavaScript string coercion, as applied by `page.goto(action.value)`. -/
def JVal.asString : JVal → String
  | .str s => s
  | .bool b => if b then "true" else "false"
  | .num n => toString n

structure LLMAction where
  action : Option String
  target_image : Option Int
  target_id : Option String
  location_x : Option Int
  location_y : Option Int
  value : Option JVal
  comment : Option String
deriving DecidableEq

/-- A tagged element's rectangle, in document coordinates. -/
structure Elem where
  left : Int
  top : Int
  width : Int
  height : Int
deriving DecidableEq

structure PageState where
  url : String
  scrollY : Int
  elems : List (String × Elem)
deriving DecidableEq

/-- `document.querySelector` on the injected tag class: first match wins. -/
def findElem (page : PageState) (targetId : String) : Option Elem :=
  (page.elems.find? (fun kv => kv.1 == targetId)).map (fun kv => kv.2)

/-- `Math.floor(a + b / 2)` on JS numbers, for integer rectangle fields. -/
def floorHalf (a b : Int) : Int := Int.fdiv (2 * a + b) 2

/-- JS truthiness of `action.target_id` (undefined and `""` are falsy). -/
def tidTruthy (a : LLMAction) : Bool :=
  match a.target_id with
  | some t => !(t == "")
  | none => false

/-- Step 3: overwrite the location with the tagged element's centre in the
viewport at the CURRENT scroll position (`getBoundingClientRect` is
evaluated before the scroll of step 4). -/
def resolveTagged (page : PageState) (a : LLMAction) : LLMAction :=
  if tidTruthy a then
    match a.target_id with
    | some tid =>
      match findElem page tid with
      | some e =>
        { a with location_x := some (floorHalf e.left e.width),
                 location_y := some (floorHalf (e.top - page.scrollY) e.height) }
      | none => a
    | none => a
  else a

/-- Step 4: `offsetHeights[action.target_image - 1]`, with JS `undefined`
(missing field, negative or out-of-range index) coerced to 0 by
`window.scrollTo`. -/
def scrollTarget (offsetHeights : List Int) (a : LLMAction) : Int :=
  match a.target_image with
  | some m => if m < 1 then 0 else ((offsetHeights.get? (m - 1).toNat).getD 0)
  | none => 0

inductive ExecError where
  | noTargetUrl
  | typeError
  | expectationFalse
  | cantFulfill
  | invalidAction
deriving DecidableEq

/-- Observable outcome of one `executeAction` run: the final page state,
the `location_x`/`location_y` fields at dispatch time, whether a tagged
selector (rather than mouse coordinates) was used, and the returned
move-on flag. -/
structure ExecTrace where
  page : PageState
  loc : Option Int × Option Int
  usedSelector : Bool
  moveOn : Bool
deriving DecidableEq

/-- `action.value === 'true' || action.value === true`. -/
def expectationIsTrue (a : LLMAction) : Bool :=
  a.value == some (JVal.str "true") || a.value == some (JVal.bool true)

/-- `executeAction(page, offsetHeights, action, retry)`.  A thrown
exception is `Except.error`; `Except.ok` carries the trace with the
returned boolean. -/
def executeAction (page : PageState) (offsetHeights : List Int)
    (action? : Option LLMAction) (retry : Bool) : Except ExecError ExecTrace :=
  match action? with
  | some a =>
    if a.action = some "navigate" then
      match a.value with
      | some v =>
        if v.truthy then
          .ok ⟨{ page with url := v.asString }, (a.location_x, a.location_y), false, true⟩
        else .error .noTargetUrl
      | none => .error .noTargetUrl
    else
      let a1 := resolveTagged page a
      let page1 := { page with scrollY := scrollTarget offsetHeights a }
      match a.action with
      | some act =>
        if act = "click" then
          .ok ⟨page1, (a1.location_x, a1.location_y), tidTruthy a, true⟩
        else if act = "type" then
          match a.value with
          | some (JVal.str _) =>
            .ok ⟨page1, (a1.location_x, a1.location_y), tidTruthy a, true⟩
          | _ => .error .typeError
        else if act = "expectation" then
          if expectationIsTrue a then
            .ok ⟨page1, (a1.location_x, a1.location_y), false, true⟩
          else if retry then
            .ok ⟨page1, (a1.location_x, a1.location_y), false, false⟩
          else .error .expectationFalse
        else if act = "unknown" then
          if retry then
            .ok ⟨page1, (a1.location_x, a1.location_y), false, false⟩
          else .error .cantFulfill
        else .error .invalidAction
      | none => .error .invalidAction
  | none => .error .typeError

/-- Claim C2 (amended): when the parser yields `null`, `executeAction` does
not degrade to the `unknown` action policy — reading `action.target_id` of
`null` throws a `TypeError`, which is fatal regardless of the retry flag. -/
theorem executeAction_C2_amended (page : PageState) (offsetHeights : List Int)
    (retry : Bool) :
    executeAction page offsetHeights none retry = .error .typeError := rfl

/-- Claim C2 as stated is false: on a `null` parsed action with retries
remaining, the `unknown` policy would request a retry, but `executeAction`
raises the fatal `TypeError` instead. -/
theorem executeAction_C2_counterexample :
    executeAction ⟨"https://x.test", 0, []⟩ [] none true = .error .typeError
    ∧ (Except.error ExecError.typeError : Except ExecError ExecTrace)
        ≠ .ok ⟨⟨"https://x.test", 0, []⟩, (none, none), false, false⟩ := by
  constructor
  · rfl
  · intro h
    exact Except.noConfusion h

/-- Claim C8 (amended): for a click or type action carrying a truthy
`target_id` that resolves to a tagged element, the executor resolves the
target point to the element's viewport centre at the scroll position on
ENTRY — the scroll to the `target_image` tile offset happens only after
resolution — and dispatches through the element's selector rather than the
coordinates.  The original claim's "after scrolling to the tile offset"
contradicts this order, see the counterexample. -/
theorem executeAction_C8_amended (page : PageState) (offsetHeights : List Int)
    (a : LLMAction) (tid : String) (e : Elem) (retry : Bool)
    (htid : a.target_id = some tid) (hne : tid ≠ "")
    (hfind : findElem page tid = some e)
    (hact : a.action = some "click" ∨ (a.action = some "type" ∧ ∃ s, a.value = some (JVal.str s))) :
    executeAction page offsetHeights (some a) retry =
      .ok ⟨{ page with scrollY := scrollTarget offsetHeights a },
           (some (floorHalf e.left e.width),
             some (floorHalf (e.top - page.scrollY) e.height)),
           true, true⟩ := by
  have htt : tidTruthy a = true := by
    simp [tidTruthy, htid, hne]
  have hres : resolveTagged page a =
      { a with location_x := some (floorHalf e.left e.width),
               location_y := some (floorHalf (e.top - page.scrollY) e.height) } := by
    simp [resolveTagged, htt, htid, hfind]
  rcases hact with hclick | ⟨htype, s, hval⟩
  · simp [executeAction, hclick, hres, htt]
  · simp [executeAction, htype, hval, hres, htt]

/-- Witness for `executeAction_C8_amended`: a tagged click on element `"3"`
captured in tile 2 (offset 824), on a page currently scrolled to 0. -/
theorem executeAction_C8_witness :
    (⟨some "click", some 2, some "3", none, none, none, none⟩ : LLMAction).target_id
        = some "3"
    ∧ ("3" : String) ≠ ""
    ∧ findElem ⟨"https://x.test", 0, [("3", ⟨100, 900, 20, 20⟩)]⟩ "3"
        = some ⟨100, 900, 20, 20⟩
    ∧ executeAction ⟨"https://x.test", 0, [("3", ⟨100, 900, 20, 20⟩)]⟩ [0, 824]
        (some ⟨some "click", some 2, some "3", none, none, none, none⟩) false =
      .ok ⟨{ (⟨"https://x.test", 0, [("3", ⟨100, 900, 20, 20⟩)]⟩ : PageState) with
              scrollY := scrollTarget [0, 824]
                ⟨some "click", some 2, some "3", none, none, none, none⟩ },
           (some (floorHalf 100 20), some (floorHalf (900 - 0) 20)),
           true, true⟩ :=
  ⟨rfl, by decide, by decide,
    executeAction_C8_amended ⟨"https://x.test", 0, [("3", ⟨100, 900, 20, 20⟩)]⟩
      [0, 824] ⟨some "click", some 2, some "3", none, none, none, none⟩
      "3" ⟨100, 900, 20, 20⟩ false rfl (by decide) (by decide) (Or.inl rfl)⟩

/-- Claim C8 as stated is false: for the tagged click on element `"3"`
(document top 900, height 20) named in tile 2 (offset 824) with the page
scrolled to 0, the executor resolves `location_y = 910` — the centre in the
viewport BEFORE scrolling — and then scrolls to 824; the element's
current-viewport centre after that scroll would be 86. -/
theorem executeAction_C8_counterexample :
    executeAction ⟨"https://x.test", 0, [("3", ⟨100, 900, 20, 20⟩)]⟩ [0, 824]
        (some ⟨some "click", some 2, some "3", none, none, none, none⟩) false =
      .ok ⟨⟨"https://x.test", 824, [("3", ⟨100, 900, 20, 20⟩)]⟩,
           (some 110, some 910), true, true⟩
    ∧ floorHalf (900 - 824) 20 = 86
    ∧ (910 : Int) ≠ 86 := by
  refine ⟨rfl, by decide, by decide⟩

/- ## Retry controller: `executeCommand` (utilities.ts)

The loop variable bound is `maxRetries = retry.enabled ? retry.maxRetries - 1 : 1`
and the loop runs while `currentRetry <= maxRetries`.  Each iteration calls
the perception adapter (`getLLMResponseWithCurrentPage`, which returns the
attempt's cache hash), parses the response, and calls `executeAction` with
the retry flag `retry.enabled && currentRetry < maxRetries`.  A true
`moveOn` breaks out; a false one deletes the cache entry for this attempt's
hash (when non-null) and loops after the retry delay; a thrown error
propagates.  Perception and parse-plus-execution are external collaborators
of the loop, embedded as the oracles `perceive` (the cache hash returned
for attempt `i`) and `exec` (the outcome of attempt `i` under a given
retry flag). -/

structure RetryConfig where
  enabled : Bool
  maxRetries : Int
  retryDelay : Int
deriving DecidableEq

inductive ExecResult where
  | done
  | retryRequested
  | fatal
deriving DecidableEq

inductive CmdOutcome where
  | completed
  | fatalError
  | exhausted
deriving DecidableEq

/-- Observable trace of one `executeCommand` run: how many perception
(LLM) calls were made, which cache keys were removed (in order), and how
the loop ended (`exhausted` = the `while` condition ran out without a
break, which the code treats as a normal return). -/
structure CmdTrace where
  perceptionCalls : Nat
  removedKeys : List String
  outcome : CmdOutcome
deriving DecidableEq

/-- `let maxRetries = retry.enabled ? retry.maxRetries - 1 : 1`. -/
def maxRetriesVar (cfg : RetryConfig) : Int :=
  if cfg.enabled then cfg.maxRetries - 1 else 1

/-- The `while (currentRetry <= maxRetries)` loop of `executeCommand`,
with `fuel` the number of loop iterations still allowed
(`maxRetries - currentRetry + 1`) and `i` the value of `currentRetry`. -/
def commandLoop (perceive : Nat → Option String) (exec : Nat → Bool → ExecResult)
    (flagOf : Nat → Bool) : Nat → Nat → CmdTrace
  | 0, _ => ⟨0, [], .exhausted⟩
  | fuel + 1, i =>
    let r := exec i (flagOf i)
    if r = .fatal then ⟨1, [], .fatalError⟩
    else if r = .done then ⟨1, [], .completed⟩
    else
      let removedHere := match perceive i with
        | some h => [h]
        | none => []
      let t := commandLoop perceive exec flagOf fuel (i + 1)
      ⟨t.perceptionCalls + 1, removedHere ++ t.removedKeys, t.outcome⟩

/-- `executeCommand(page, command)`, abstracted over the perception and
execution oracles; the retry flag passed to attempt `i` is
`retry.enabled && currentRetry < maxRetries` as in the source. -/
def executeCommand (cfg : RetryConfig) (perceive : Nat → Option String)
    (exec : Nat → Bool → ExecResult) : CmdTrace :=
  commandLoop perceive exec
    (fun i => cfg.enabled && decide ((i : Int) < maxRetriesVar cfg))
    (maxRetriesVar cfg + 1).toNat 0

lemma commandLoop_zero (perceive : Nat → Option String)
    (exec : Nat → Bool → ExecResult) (flagOf : Nat → Bool) (i : Nat) :
    commandLoop perceive exec flagOf 0 i = ⟨0, [], .exhausted⟩ := rfl

lemma commandLoop_fatal (perceive : Nat → Option String)
    (exec : Nat → Bool → ExecResult) (flagOf : Nat → Bool) (fuel i : Nat)
    (h : exec i (flagOf i) = .fatal) :
    commandLoop perceive exec flagOf (fuel + 1) i = ⟨1, [], .fatalError⟩ := by
  simp [commandLoop, h]

lemma commandLoop_done (perceive : Nat → Option String)
    (exec : Nat → Bool → ExecResult) (flagOf : Nat → Bool) (fuel i : Nat)
    (h : exec i (flagOf i) = .done) :
    commandLoop perceive exec flagOf (fuel + 1) i = ⟨1, [], .completed⟩ := by
  simp [commandLoop, h]

lemma commandLoop_retry (perceive : Nat → Option String)
    (exec : Nat → Bool → ExecResult) (flagOf : Nat → Bool) (fuel i : Nat)
    (h : exec i (flagOf i) = .retryRequested) (k : String)
    (hp : perceive i = some k) :
    commandLoop perceive exec flagOf (fuel + 1) i =
      ⟨(commandLoop perceive exec flagOf fuel (i + 1)).perceptionCalls + 1,
        k :: (commandLoop perceive exec flagOf fuel (i + 1)).removedKeys,
        (commandLoop perceive exec flagOf fuel (i + 1)).outcome⟩ := by
  simp [commandLoop, h, hp]

/-- Claim C4 (confirmed): with retries enabled and `maxRetries = 3`, an
executor reporting RetryRequested on the first two attempts and Done on the
third makes `executeCommand` perform exactly 3 perception calls and remove
exactly the 2 cache keys returned for the first two attempts, in order. -/
theorem executeCommand_C4_retryAccounting (d : Int)
    (perceive : Nat → Option String) (exec : Nat → Bool → ExecResult)
    (k : Nat → String)
    (hp : ∀ i, perceive i = some (k i))
    (h0 : ∀ b, exec 0 b = .retryRequested)
    (h1 : ∀ b, exec 1 b = .retryRequested)
    (h2 : ∀ b, exec 2 b = .done) :
    executeCommand ⟨true, 3, d⟩ perceive exec = ⟨3, [k 0, k 1], .completed⟩ := by
  have hm : maxRetriesVar ⟨true, 3, d⟩ = 2 := by norm_num [maxRetriesVar]
  unfold executeCommand
  rw [hm]
  have hfuel : ((2 : Int) + 1).toNat = 2 + 1 := by decide
  rw [hfuel]
  rw [commandLoop_retry _ _ _ _ _ (h0 _) (k 0) (hp 0)]
  rw [show (2 : Nat) = 1 + 1 from rfl]
  rw [commandLoop_retry _ _ _ _ _ (h1 _) (k 1) (hp 1)]
  rw [show (1 : Nat) = 0 + 1 from rfl]
  rw [commandLoop_done _ _ _ _ _ (h2 _)]

/-- Witness for `executeCommand_C4_retryAccounting` at concrete oracles. -/
theorem executeCommand_C4_witness :
    (∀ i : Nat, (fun j : Nat => some (toString j)) i = some (toString i))
    ∧ (∀ b : Bool, (fun i : Nat => fun _ : Bool =>
        if i < 2 then ExecResult.retryRequested else ExecResult.done) 0 b
          = .retryRequested)
    ∧ (∀ b : Bool, (fun i : Nat => fun _ : Bool =>
        if i < 2 then ExecResult.retryRequested else ExecResult.done) 1 b
          = .retryRequested)
    ∧ (∀ b : Bool, (fun i : Nat => fun _ : Bool =>
        if i < 2 then ExecResult.retryRequested else ExecResult.done) 2 b
          = .done)
    ∧ executeCommand ⟨true, 3, 5000⟩ (fun j => some (toString j))
        (fun i => fun _ => if i < 2 then ExecResult.retryRequested else ExecResult.done)
        = ⟨3, [toString 0, toString 1], .completed⟩ :=
  ⟨fun _ => rfl, fun _ => rfl, fun _ => rfl, fun _ => rfl,
    executeCommand_C4_retryAccounting 5000 (fun j => some (toString j))
      (fun i => fun _ => if i < 2 then ExecResult.retryRequested else ExecResult.done)
      (fun j => toString j) (fun _ => rfl) (fun _ => rfl) (fun _ => rfl) (fun _ => rfl)⟩

/-- The three-state outcome of one parse-plus-execute attempt, as consumed
by the loop: `executeAction` throwing is fatal, returning `true` completes,
returning `false` requests a retry. -/
def execResult (r : Except ExecError ExecTrace) : ExecResult :=
  match r with
  | .error _ => .fatal
  | .ok t => if t.moveOn then .done else .retryRequested

/-- With the retry flag off, `executeAction` never returns `false`: its two
retry-aware branches (`expectation` false and `unknown`) throw instead. -/
lemma executeAction_noRetry_moveOn (page : PageState) (offs : List Int)
    (a? : Option LLMAction) :
    execResult (executeAction page offs a? false) ≠ .retryRequested := by
  cases a? with
  | none => simp [executeAction, execResult]
  | some a =>
    simp only [executeAction]
    repeat' split
    all_goals simp_all [execResult]

lemma commandLoop_one_attempt (perceive : Nat → Option String)
    (exec : Nat → Bool → ExecResult) (flagOf : Nat → Bool) (fuel i : Nat)
    (h : exec i (flagOf i) ≠ .retryRequested) :
    commandLoop perceive exec flagOf (fuel + 1) i = ⟨1, [], .fatalError⟩
    ∨ commandLoop perceive exec flagOf (fuel + 1) i = ⟨1, [], .completed⟩ := by
  rcases hE : exec i (flagOf i) with _ | _ | _
  · right
    exact commandLoop_done _ _ _ _ _ hE
  · exact absurd hE h
  · left
    exact commandLoop_fatal _ _ _ _ _ hE

/-- Claim C5 (confirmed): with retries disabled, `executeCommand` performs
exactly one perception-parse-execute attempt, removes no cache entry, and
ends by completing or by raising a fatal error — it never loops back.  (The
loop bound is 2 in that case, but with the retry flag forced off the first
attempt can only break or throw.) -/
theorem executeCommand_C5_singleAttempt (cfg : RetryConfig)
    (hcfg : cfg.enabled = false) (perceive : Nat → Option String)
    (actions : Nat → Option LLMAction) (pages : Nat → PageState)
    (offs : Nat → List Int) :
    (executeCommand cfg perceive
        (fun i flag => execResult (executeAction (pages i) (offs i) (actions i) flag))).perceptionCalls = 1
    ∧ (executeCommand cfg perceive
        (fun i flag => execResult (executeAction (pages i) (offs i) (actions i) flag))).removedKeys = []
    ∧ ((executeCommand cfg perceive
        (fun i flag => execResult (executeAction (pages i) (offs i) (actions i) flag))).outcome = .completed
      ∨ (executeCommand cfg perceive
        (fun i flag => execResult (executeAction (pages i) (offs i) (actions i) flag))).outcome = .fatalError) := by
  have hm : maxRetriesVar cfg = 1 := by simp [maxRetriesVar, hcfg]
  unfold executeCommand
  rw [hm]
  have hfuel : ((1 : Int) + 1).toNat = 1 + 1 := by decide
  rw [hfuel]
  have hkey : (fun i flag => execResult (executeAction (pages i) (offs i) (actions i) flag)) 0
      ((fun i : Nat => cfg.enabled && decide ((i : Int) < 1)) 0) ≠ ExecResult.retryRequested := by
    simp only [hcfg, Bool.false_and]
    exact executeAction_noRetry_moveOn (pages 0) (offs 0) (actions 0)
  rcases commandLoop_one_attempt perceive
      (fun i flag => execResult (executeAction (pages i) (offs i) (actions i) flag))
      (fun i : Nat => cfg.enabled && decide ((i : Int) < 1)) 1 0 hkey with hres | hres <;>
    rw [hres] <;> simp

/-- Witness for `executeCommand_C5_singleAttempt`: a disabled retry
configuration running a navigate instruction. -/
theorem executeCommand_C5_witness :
    (⟨false, 3, 5000⟩ : RetryConfig).enabled = false
    ∧ ((executeCommand ⟨false, 3, 5000⟩ (fun _ => none)
        (fun i flag => execResult (executeAction ((fun _ => ⟨"about:blank", 0, []⟩) i)
          ((fun _ => []) i)
          ((fun _ => some ⟨some "navigate", none, none, none, none,
            some (JVal.str "https://x.test"), none⟩) i) flag))).perceptionCalls = 1
    ∧ (executeCommand ⟨false, 3, 5000⟩ (fun _ => none)
        (fun i flag => execResult (executeAction ((fun _ => ⟨"about:blank", 0, []⟩) i)
          ((fun _ => []) i)
          ((fun _ => some ⟨some "navigate", none, none, none, none,
            some (JVal.str "https://x.test"), none⟩) i) flag))).removedKeys = []
    ∧ ((executeCommand ⟨false, 3, 5000⟩ (fun _ => none)
        (fun i flag => execResult (executeAction ((fun _ => ⟨"about:blank", 0, []⟩) i)
          ((fun _ => []) i)
          ((fun _ => some ⟨some "navigate", none, none, none, none,
            some (JVal.str "https://x.test"), none⟩) i) flag))).outcome = .completed
      ∨ (executeCommand ⟨false, 3, 5000⟩ (fun _ => none)
        (fun i flag => execResult (executeAction ((fun _ => ⟨"about:blank", 0, []⟩) i)
          ((fun _ => []) i)
          ((fun _ => some ⟨some "navigate", none, none, none, none,
            some (JVal.str "https://x.test"), none⟩) i) flag))).outcome = .fatalError)) :=
  ⟨rfl, executeCommand_C5_singleAttempt ⟨false, 3, 5000⟩ rfl (fun _ => none)
    (fun _ => some ⟨some "navigate", none, none, none, none,
      some (JVal.str "https://x.test"), none⟩)
    (fun _ => ⟨"about:blank", 0, []⟩) (fun _ => [])⟩
